import Mathlib

/-!
Verification of the cerberus rate-limiting middleware (Go).

The embedding models the two gating handlers `Middleware` (middleware.go)
and `AdvancedMiddleware` (middleware_advanced.go) as pure functions over an
explicit response-writer state, instrumented with an event log that records
every externally visible action the handler performs: the call into the
rate limiter (`IsAllowed`), the quota-snapshot fetch (`GetRateLimitData`),
each response-header mutation, each status commit (`WriteHeader`), and the
invocation of the downstream handler (`next.ServeHTTP`).
-/

/-- Model of the parts of Go's `*http.Request` the middleware passes through.
The middleware never inspects the request, it only forwards it. -/
structure Request where
  method : String
  path : String
deriving DecidableEq

/-- A Go `error` value: `none` models a nil error, `some s` a non-nil error. -/
abbrev GoError := String

/-- Association-list model of Go's `http.Header` map. -/
abbrev HeaderMap := List (String × String)

/-- `http.Header.Set`: replaces any existing value for the key. -/
def headerSet (h : HeaderMap) (k v : String) : HeaderMap :=
  (k, v) :: List.filter (fun p => p.1 ≠ k) h

/-- `http.Header.Get`: first value stored for the key, if any. -/
def headerGet (h : HeaderMap) (k : String) : Option String :=
  match h with
  | [] => none
  | (k', v) :: t => if k' = k then some v else headerGet t k

/-- State of Go's `http.ResponseWriter`: headers, the committed status
(`none` until `WriteHeader` is called), and the body written so far. -/
structure ResponseWriter where
  headers : HeaderMap
  status : Option Nat
  body : String
deriving DecidableEq

/-- `ResponseWriter.WriteHeader`: commits the status; a second call is a
no-op (net/http ignores superfluous WriteHeader calls). -/
def writerWriteHeader (w : ResponseWriter) (s : Nat) : ResponseWriter :=
  match w.status with
  | some _ => w
  | none => { w with status := some s }

/-- Externally visible actions performed by a gating handler. -/
inductive Event where
  | evaluateCall
  | getDataCall
  | setHeader (name value : String)
  | writeHeader (status : Nat)
  | nextCall
deriving DecidableEq

/-- A middleware execution: the response-writer state plus the ordered log
of actions the handler itself performed. -/
structure Exec where
  writer : ResponseWriter
  log : List Event
deriving DecidableEq

/-- Execution at the start of a request: given writer, empty log. -/
def Exec.init (w : ResponseWriter) : Exec := { writer := w, log := [] }

def Exec.logEvent (e : Exec) (ev : Event) : Exec :=
  { e with log := e.log ++ [ev] }

/-- `w.Header().Set(k, v)` inside the handler. -/
def Exec.setHeader (e : Exec) (k v : String) : Exec :=
  { writer := { e.writer with headers := headerSet e.writer.headers k v },
    log := e.log ++ [Event.setHeader k v] }

/-- `w.WriteHeader(s)` inside the handler. -/
def Exec.writeHeader (e : Exec) (s : Nat) : Exec :=
  { writer := writerWriteHeader e.writer s,
    log := e.log ++ [Event.writeHeader s] }

/-- A downstream `http.Handler`: transforms the response writer given the
request. Its own actions are not part of the middleware's log. -/
def Handler := Request → ResponseWriter → ResponseWriter

/-- `next.ServeHTTP(w, r)`: hands the current writer and the request to the
downstream handler; its output becomes the new writer state. -/
def Exec.serveNext (e : Exec) (next : Handler) (r : Request) : Exec :=
  { writer := next r e.writer, log := e.log ++ [Event.nextCall] }

/-- Go `time.Duration`: a count of nanoseconds (int64 in Go). -/
abbrev Duration := Int

/-- `time.Duration.Milliseconds()`: `int64(d) / 1e6` with Go's integer
division, which truncates toward zero (`Int.tdiv`). -/
def Duration.Milliseconds (d : Duration) : Int := Int.tdiv d 1000000

/-- `fmt.Sprintf("%d", n)` for a Go integer: base-10 digits, with a leading
minus sign for negative values. -/
def fmtInt (n : Int) : String := toString n

/-- The `RateLimiter` interface (ratelimiter.go): `IsAllowed` returns
`(allowed, err)`. -/
structure RateLimiter where
  IsAllowed : Request → Bool × Option GoError

/-- `RateLimitData` (advanced_ratelimiter.go). -/
structure RateLimitData where
  Remaining : Int
  Limit : Int
  RetryAfter : Duration
deriving DecidableEq

/-- The `AdvancedRateLimiter` interface: embeds `RateLimiter` and adds
`GetRateLimitData`, which cannot fail. -/
structure AdvancedRateLimiter extends RateLimiter where
  GetRateLimitData : Request → RateLimitData

/-- `Middleware` (middleware.go): checks `IsAllowed`; on error writes 500,
on deny writes 429, otherwise forwards to `next`. -/
def Middleware (rateLimiter : RateLimiter) (next : Handler)
    (r : Request) (e : Exec) : Exec :=
  let res := rateLimiter.IsAllowed r
  let e := e.logEvent Event.evaluateCall
  if res.2.isSome then
    e.writeHeader 500
  else if !res.1 then
    e.writeHeader 429
  else
    e.serveNext next r

/-- `AdvancedMiddleware` (middleware_advanced.go): checks `IsAllowed`; on
error writes 500; otherwise fetches `GetRateLimitData`, then on deny sets
the retry-after header and writes 429, and on allow sets the limit and
remaining headers and forwards to `next`. -/
def AdvancedMiddleware (rateLimiter : AdvancedRateLimiter) (next : Handler)
    (r : Request) (e : Exec) : Exec :=
  let res := rateLimiter.IsAllowed r
  let e := e.logEvent Event.evaluateCall
  if res.2.isSome then
    e.writeHeader 500
  else
    let data := rateLimiter.GetRateLimitData r
    let e := e.logEvent Event.getDataCall
    if !res.1 then
      (e.setHeader "X-RateLimit-Retry-After"
          (fmtInt (Duration.Milliseconds data.RetryAfter))).writeHeader 429
    else
      ((e.setHeader "X-RateLimit-Limit" (fmtInt data.Limit)).setHeader
          "X-RateLimit-Remaining" (fmtInt data.Remaining)).serveNext next r

/-- Number of occurrences of a given event in a log. -/
def countEvent (target : Event) : List Event → Nat
  | [] => 0
  | ev :: rest => (if ev = target then 1 else 0) + countEvent target rest

/-- Number of header-mutation events in a log, of any name. -/
def countSetHeaders : List Event → Nat
  | [] => 0
  | Event.setHeader _ _ :: rest => countSetHeaders rest + 1
  | _ :: rest => countSetHeaders rest

/-- No header-mutation event occurs anywhere in the log. -/
def noSetHeaderIn : List Event → Bool
  | [] => true
  | Event.setHeader _ _ :: _ => false
  | _ :: rest => noSetHeaderIn rest

/-- Every header mutation happens strictly before the first event that can
commit a status: a `writeHeader` or the downstream invocation. -/
def headersBeforeCommit : List Event → Bool
  | [] => true
  | Event.writeHeader _ :: rest => noSetHeaderIn rest
  | Event.nextCall :: rest => noSetHeaderIn rest
  | _ :: rest => headersBeforeCommit rest

/-- Concrete collaborators used by the witness theorems. -/
def testReq : Request := { method := "GET", path := "/api" }

def freshWriter : ResponseWriter := { headers := [], status := none, body := "" }

def okHandler : Handler := fun _ w => writerWriteHeader w 200

/-- C1: when `IsAllowed` returns `(true, nil)`, `Middleware` invokes the
downstream handler exactly once with the original request and writer, its
output is the final response, and the handler itself logs no header or
status action. -/
theorem middleware_allow_forwards_unmodified
    (rl : RateLimiter) (next : Handler) (r : Request) (w : ResponseWriter)
    (h : rl.IsAllowed r = (true, none)) :
    Middleware rl next r (Exec.init w) =
      { writer := next r w, log := [Event.evaluateCall, Event.nextCall] } ∧
    countEvent Event.nextCall (Middleware rl next r (Exec.init w)).log = 1 ∧
    countSetHeaders (Middleware rl next r (Exec.init w)).log = 0 := by
  simp [Middleware, Exec.init, Exec.logEvent, Exec.serveNext, h,
    countEvent, countSetHeaders]

def allowLimiter : RateLimiter := { IsAllowed := fun _ => (true, none) }

theorem middleware_allow_forwards_unmodified_witness :
    allowLimiter.IsAllowed testReq = (true, none) ∧
    (Middleware allowLimiter okHandler testReq (Exec.init freshWriter) =
      { writer := okHandler testReq freshWriter,
        log := [Event.evaluateCall, Event.nextCall] } ∧
    countEvent Event.nextCall
      (Middleware allowLimiter okHandler testReq (Exec.init freshWriter)).log = 1 ∧
    countSetHeaders
      (Middleware allowLimiter okHandler testReq (Exec.init freshWriter)).log = 0) :=
  ⟨rfl, middleware_allow_forwards_unmodified allowLimiter okHandler testReq
    freshWriter rfl⟩

/-- C2: when `IsAllowed` returns `(false, nil)`, `Middleware` commits status
429, leaves headers and body untouched, and never invokes the downstream
handler. -/
theorem middleware_deny_429
    (rl : RateLimiter) (next : Handler) (r : Request) (w : ResponseWriter)
    (h : rl.IsAllowed r = (false, none)) :
    (Middleware rl next r (Exec.init w)).writer.headers = w.headers ∧
    (Middleware rl next r (Exec.init w)).writer.body = w.body ∧
    (w.status = none →
      (Middleware rl next r (Exec.init w)).writer.status = some 429) ∧
    (Middleware rl next r (Exec.init w)).log =
      [Event.evaluateCall, Event.writeHeader 429] ∧
    countEvent Event.nextCall (Middleware rl next r (Exec.init w)).log = 0 := by
  simp only [Middleware, Exec.init, Exec.logEvent, Exec.writeHeader, h]
  cases hs : w.status <;>
    simp [writerWriteHeader, hs, countEvent]

def denyLimiter : RateLimiter := { IsAllowed := fun _ => (false, none) }

theorem middleware_deny_429_witness :
    denyLimiter.IsAllowed testReq = (false, none) ∧
    ((Middleware denyLimiter okHandler testReq (Exec.init freshWriter)).writer.headers
        = freshWriter.headers ∧
    (Middleware denyLimiter okHandler testReq (Exec.init freshWriter)).writer.body
        = freshWriter.body ∧
    (freshWriter.status = none →
      (Middleware denyLimiter okHandler testReq (Exec.init freshWriter)).writer.status
        = some 429) ∧
    (Middleware denyLimiter okHandler testReq (Exec.init freshWriter)).log =
      [Event.evaluateCall, Event.writeHeader 429] ∧
    countEvent Event.nextCall
      (Middleware denyLimiter okHandler testReq (Exec.init freshWriter)).log = 0) :=
  ⟨rfl, middleware_deny_429 denyLimiter okHandler testReq freshWriter rfl⟩

/-- C3: when `IsAllowed` returns a non-nil error — whatever the `allowed`
boolean, including `true` — both handlers commit status 500, leave headers
and body untouched, never invoke the downstream handler, and the advanced
handler never calls `GetRateLimitData`. -/
theorem middleware_failure_500
    (rl : RateLimiter) (arl : AdvancedRateLimiter) (next : Handler)
    (r : Request) (w : ResponseWriter) (a b : Bool) (ea eb : GoError)
    (h1 : rl.IsAllowed r = (a, some ea))
    (h2 : arl.IsAllowed r = (b, some eb)) :
    (Middleware rl next r (Exec.init w)).log =
      [Event.evaluateCall, Event.writeHeader 500] ∧
    (AdvancedMiddleware arl next r (Exec.init w)).log =
      [Event.evaluateCall, Event.writeHeader 500] ∧
    (Middleware rl next r (Exec.init w)).writer.headers = w.headers ∧
    (AdvancedMiddleware arl next r (Exec.init w)).writer.headers = w.headers ∧
    (Middleware rl next r (Exec.init w)).writer.body = w.body ∧
    (AdvancedMiddleware arl next r (Exec.init w)).writer.body = w.body ∧
    (w.status = none →
      (Middleware rl next r (Exec.init w)).writer.status = some 500 ∧
      (AdvancedMiddleware arl next r (Exec.init w)).writer.status = some 500) ∧
    countEvent Event.nextCall (Middleware rl next r (Exec.init w)).log = 0 ∧
    countEvent Event.nextCall (AdvancedMiddleware arl next r (Exec.init w)).log = 0 ∧
    countEvent Event.getDataCall
      (AdvancedMiddleware arl next r (Exec.init w)).log = 0 := by
  simp only [Middleware, AdvancedMiddleware, Exec.init, Exec.logEvent,
    Exec.writeHeader, h1, h2]
  cases hs : w.status <;>
    simp [writerWriteHeader, hs, countEvent]

def errLimiter : RateLimiter := { IsAllowed := fun _ => (true, some "backend down") }

def errAdvLimiter : AdvancedRateLimiter :=
  { IsAllowed := fun _ => (true, some "backend down"),
    GetRateLimitData := fun _ => { Remaining := 0, Limit := 0, RetryAfter := 0 } }

theorem middleware_failure_500_witness :
    errLimiter.IsAllowed testReq = (true, some "backend down") ∧
    errAdvLimiter.IsAllowed testReq = (true, some "backend down") ∧
    ((Middleware errLimiter okHandler testReq (Exec.init freshWriter)).log =
      [Event.evaluateCall, Event.writeHeader 500] ∧
    (AdvancedMiddleware errAdvLimiter okHandler testReq (Exec.init freshWriter)).log =
      [Event.evaluateCall, Event.writeHeader 500] ∧
    (Middleware errLimiter okHandler testReq (Exec.init freshWriter)).writer.headers
      = freshWriter.headers ∧
    (AdvancedMiddleware errAdvLimiter okHandler testReq (Exec.init freshWriter)).writer.headers
      = freshWriter.headers ∧
    (Middleware errLimiter okHandler testReq (Exec.init freshWriter)).writer.body
      = freshWriter.body ∧
    (AdvancedMiddleware errAdvLimiter okHandler testReq (Exec.init freshWriter)).writer.body
      = freshWriter.body ∧
    (freshWriter.status = none →
      (Middleware errLimiter okHandler testReq (Exec.init freshWriter)).writer.status
        = some 500 ∧
      (AdvancedMiddleware errAdvLimiter okHandler testReq (Exec.init freshWriter)).writer.status
        = some 500) ∧
    countEvent Event.nextCall
      (Middleware errLimiter okHandler testReq (Exec.init freshWriter)).log = 0 ∧
    countEvent Event.nextCall
      (AdvancedMiddleware errAdvLimiter okHandler testReq (Exec.init freshWriter)).log = 0 ∧
    countEvent Event.getDataCall
      (AdvancedMiddleware errAdvLimiter okHandler testReq (Exec.init freshWriter)).log = 0) :=
  ⟨rfl, rfl, middleware_failure_500 errLimiter errAdvLimiter okHandler testReq
    freshWriter true true "backend down" "backend down" rfl rfl⟩

/-- C9: `Middleware` mutates no header in any branch: its log never contains
a header-mutation event; on the deny and failure branches the header map is
exactly the one on entry, and on the allow branch the final writer is
whatever the downstream handler produced from the original writer. -/
theorem middleware_adds_no_headers
    (rl : RateLimiter) (next : Handler) (r : Request) (w : ResponseWriter) :
    countSetHeaders (Middleware rl next r (Exec.init w)).log = 0 ∧
    ((rl.IsAllowed r).2.isSome →
      (Middleware rl next r (Exec.init w)).writer.headers = w.headers) ∧
    (rl.IsAllowed r = (false, none) →
      (Middleware rl next r (Exec.init w)).writer.headers = w.headers) ∧
    (rl.IsAllowed r = (true, none) →
      (Middleware rl next r (Exec.init w)).writer = next r w) := by
  rcases hres : rl.IsAllowed r with ⟨a, err⟩
  cases err <;> cases a <;>
    simp [Middleware, Exec.init, Exec.logEvent, Exec.writeHeader,
      Exec.serveNext, hres, countSetHeaders, writerWriteHeader] <;>
    cases hs : w.status <;> simp [writerWriteHeader, hs]

theorem middleware_adds_no_headers_witness :
    countSetHeaders
      (Middleware denyLimiter okHandler testReq (Exec.init freshWriter)).log = 0 ∧
    ((denyLimiter.IsAllowed testReq).2.isSome →
      (Middleware denyLimiter okHandler testReq (Exec.init freshWriter)).writer.headers
        = freshWriter.headers) ∧
    (denyLimiter.IsAllowed testReq = (false, none) →
      (Middleware denyLimiter okHandler testReq (Exec.init freshWriter)).writer.headers
        = freshWriter.headers) ∧
    (denyLimiter.IsAllowed testReq = (true, none) →
      (Middleware denyLimiter okHandler testReq (Exec.init freshWriter)).writer
        = okHandler testReq freshWriter) :=
  middleware_adds_no_headers denyLimiter okHandler testReq freshWriter

theorem writerWriteHeader_headers (w : ResponseWriter) (s : Nat) :
    (writerWriteHeader w s).headers = w.headers := by
  unfold writerWriteHeader; cases w.status <;> rfl

theorem writerWriteHeader_body (w : ResponseWriter) (s : Nat) :
    (writerWriteHeader w s).body = w.body := by
  unfold writerWriteHeader; cases w.status <;> rfl

theorem writerWriteHeader_status_none (w : ResponseWriter) (s : Nat)
    (h : w.status = none) : (writerWriteHeader w s).status = some s := by
  unfold writerWriteHeader; rw [h]

theorem headerGet_set_self (h : HeaderMap) (k v : String) :
    headerGet (headerSet h k v) k = some v := by
  simp [headerSet, headerGet]

theorem headerGet_filter_ne (t : HeaderMap) (k k' : String) (hne : k' ≠ k) :
    headerGet (List.filter (fun p => p.1 ≠ k) t) k' = headerGet t k' := by
  induction t with
  | nil => rfl
  | cons p t ih =>
    obtain ⟨a, b⟩ := p
    by_cases hak : a = k
    · subst hak
      rw [List.filter_cons_of_neg (by simp)]
      rw [ih]
      simp only [headerGet]
      rw [if_neg (fun hh : a = k' => hne hh.symm)]
    · rw [List.filter_cons_of_pos (by simp [hak])]
      simp only [headerGet]
      by_cases hak' : a = k'
      · rw [if_pos hak', if_pos hak']
      · rw [if_neg hak', if_neg hak']
        exact ih

theorem headerGet_set_other (h : HeaderMap) (k v k' : String) (hne : k' ≠ k) :
    headerGet (headerSet h k v) k' = headerGet h k' := by
  unfold headerSet
  simp only [headerGet]
  rw [if_neg (fun hh : k = k' => hne hh.symm)]
  exact headerGet_filter_ne h k k' hne

/-- Shape of an `AdvancedMiddleware` run when `IsAllowed` returns
`(false, nil)`. -/
theorem advancedMiddleware_deny_eq
    (rl : AdvancedRateLimiter) (next : Handler) (r : Request) (w : ResponseWriter)
    (h : rl.IsAllowed r = (false, none)) :
    AdvancedMiddleware rl next r (Exec.init w) =
      Exec.mk
        (writerWriteHeader (ResponseWriter.mk (headerSet w.headers "X-RateLimit-Retry-After" (fmtInt (Duration.Milliseconds (rl.GetRateLimitData r).RetryAfter))) w.status w.body) 429)
        [Event.evaluateCall, Event.getDataCall,
          Event.setHeader "X-RateLimit-Retry-After" (fmtInt (Duration.Milliseconds (rl.GetRateLimitData r).RetryAfter)),
          Event.writeHeader 429] := by
  simp [AdvancedMiddleware, Exec.init, Exec.logEvent, Exec.setHeader,
    Exec.writeHeader, h]

/-- Shape of an `AdvancedMiddleware` run when `IsAllowed` returns
`(true, nil)`. -/
theorem advancedMiddleware_allow_eq
    (rl : AdvancedRateLimiter) (next : Handler) (r : Request) (w : ResponseWriter)
    (h : rl.IsAllowed r = (true, none)) :
    AdvancedMiddleware rl next r (Exec.init w) =
      Exec.mk
        (next r (ResponseWriter.mk (headerSet (headerSet w.headers "X-RateLimit-Limit" (fmtInt (rl.GetRateLimitData r).Limit)) "X-RateLimit-Remaining" (fmtInt (rl.GetRateLimitData r).Remaining)) w.status w.body))
        [Event.evaluateCall, Event.getDataCall,
          Event.setHeader "X-RateLimit-Limit" (fmtInt (rl.GetRateLimitData r).Limit),
          Event.setHeader "X-RateLimit-Remaining" (fmtInt (rl.GetRateLimitData r).Remaining),
          Event.nextCall] := by
  simp [AdvancedMiddleware, Exec.init, Exec.logEvent, Exec.setHeader,
    Exec.serveNext, h]

/-- C4: `AdvancedMiddleware` calls `GetRateLimitData` exactly once whenever
`IsAllowed` returns a nil error — allow and deny alike — and never calls it
when `IsAllowed` returns a non-nil error. -/
theorem advanced_snapshot_call_counts
    (rl : AdvancedRateLimiter) (next : Handler) (r : Request) (w : ResponseWriter) :
    ((rl.IsAllowed r).2 = none →
      countEvent Event.getDataCall
        (AdvancedMiddleware rl next r (Exec.init w)).log = 1) ∧
    ((rl.IsAllowed r).2.isSome →
      countEvent Event.getDataCall
        (AdvancedMiddleware rl next r (Exec.init w)).log = 0) := by
  rcases hres : rl.IsAllowed r with ⟨a, err⟩
  cases err <;> cases a <;>
    simp [AdvancedMiddleware, Exec.init, Exec.logEvent, Exec.writeHeader,
      Exec.setHeader, Exec.serveNext, hres, countEvent]

def allowAdvLimiter : AdvancedRateLimiter :=
  { IsAllowed := fun _ => (true, none),
    GetRateLimitData := fun _ => { Remaining := 99, Limit := 100, RetryAfter := 0 } }

theorem advanced_snapshot_call_counts_witness :
    ((allowAdvLimiter.IsAllowed testReq).2 = none →
      countEvent Event.getDataCall
        (AdvancedMiddleware allowAdvLimiter okHandler testReq
          (Exec.init freshWriter)).log = 1) ∧
    ((allowAdvLimiter.IsAllowed testReq).2.isSome →
      countEvent Event.getDataCall
        (AdvancedMiddleware allowAdvLimiter okHandler testReq
          (Exec.init freshWriter)).log = 0) :=
  advanced_snapshot_call_counts allowAdvLimiter okHandler testReq freshWriter

/-- C5: when `IsAllowed` returns `(false, nil)`, `AdvancedMiddleware`
commits status 429, never invokes the downstream handler, and sets exactly
one header — `X-RateLimit-Retry-After` — leaving `X-RateLimit-Limit` and
`X-RateLimit-Remaining` untouched even though the snapshot carries them. -/
theorem advanced_deny_retry_after_only
    (rl : AdvancedRateLimiter) (next : Handler) (r : Request) (w : ResponseWriter)
    (h : rl.IsAllowed r = (false, none)) :
    (AdvancedMiddleware rl next r (Exec.init w)).log =
      [Event.evaluateCall, Event.getDataCall,
        Event.setHeader "X-RateLimit-Retry-After" (fmtInt (Duration.Milliseconds (rl.GetRateLimitData r).RetryAfter)),
        Event.writeHeader 429] ∧
    (w.status = none →
      (AdvancedMiddleware rl next r (Exec.init w)).writer.status = some 429) ∧
    countEvent Event.nextCall (AdvancedMiddleware rl next r (Exec.init w)).log = 0 ∧
    countSetHeaders (AdvancedMiddleware rl next r (Exec.init w)).log = 1 ∧
    headerGet (AdvancedMiddleware rl next r (Exec.init w)).writer.headers "X-RateLimit-Retry-After"
      = some (fmtInt (Duration.Milliseconds (rl.GetRateLimitData r).RetryAfter)) ∧
    headerGet (AdvancedMiddleware rl next r (Exec.init w)).writer.headers "X-RateLimit-Limit"
      = headerGet w.headers "X-RateLimit-Limit" ∧
    headerGet (AdvancedMiddleware rl next r (Exec.init w)).writer.headers "X-RateLimit-Remaining"
      = headerGet w.headers "X-RateLimit-Remaining" := by
  rw [advancedMiddleware_deny_eq rl next r w h]
  refine ⟨rfl, fun hs => writerWriteHeader_status_none _ 429 hs,
    by simp [countEvent], by simp [countSetHeaders], ?_, ?_, ?_⟩
  · rw [writerWriteHeader_headers]
    exact headerGet_set_self _ _ _
  · rw [writerWriteHeader_headers]
    exact headerGet_set_other _ "X-RateLimit-Retry-After" _ "X-RateLimit-Limit" (by decide)
  · rw [writerWriteHeader_headers]
    exact headerGet_set_other _ "X-RateLimit-Retry-After" _ "X-RateLimit-Remaining" (by decide)

def denyAdvLimiter : AdvancedRateLimiter :=
  { IsAllowed := fun _ => (false, none),
    GetRateLimitData := fun _ => { Remaining := 0, Limit := 100, RetryAfter := 1000000000 } }

theorem advanced_deny_retry_after_only_witness :
    denyAdvLimiter.IsAllowed testReq = (false, none) ∧
    ((AdvancedMiddleware denyAdvLimiter okHandler testReq (Exec.init freshWriter)).log =
      [Event.evaluateCall, Event.getDataCall,
        Event.setHeader "X-RateLimit-Retry-After" (fmtInt (Duration.Milliseconds (denyAdvLimiter.GetRateLimitData testReq).RetryAfter)),
        Event.writeHeader 429] ∧
    (freshWriter.status = none →
      (AdvancedMiddleware denyAdvLimiter okHandler testReq (Exec.init freshWriter)).writer.status = some 429) ∧
    countEvent Event.nextCall (AdvancedMiddleware denyAdvLimiter okHandler testReq (Exec.init freshWriter)).log = 0 ∧
    countSetHeaders (AdvancedMiddleware denyAdvLimiter okHandler testReq (Exec.init freshWriter)).log = 1 ∧
    headerGet (AdvancedMiddleware denyAdvLimiter okHandler testReq (Exec.init freshWriter)).writer.headers "X-RateLimit-Retry-After"
      = some (fmtInt (Duration.Milliseconds (denyAdvLimiter.GetRateLimitData testReq).RetryAfter)) ∧
    headerGet (AdvancedMiddleware denyAdvLimiter okHandler testReq (Exec.init freshWriter)).writer.headers "X-RateLimit-Limit"
      = headerGet freshWriter.headers "X-RateLimit-Limit" ∧
    headerGet (AdvancedMiddleware denyAdvLimiter okHandler testReq (Exec.init freshWriter)).writer.headers "X-RateLimit-Remaining"
      = headerGet freshWriter.headers "X-RateLimit-Remaining") :=
  ⟨rfl, advanced_deny_retry_after_only denyAdvLimiter okHandler testReq freshWriter rfl⟩

/-- C6: the value written into `X-RateLimit-Retry-After` on the deny path is
the whole-millisecond count of the snapshot's `RetryAfter` duration,
truncated toward zero, rendered in base 10; for nonnegative `d` it is
`d.toNat / 1000000` and for negative `d` the negation of `(-d).toNat / 1000000`. -/
theorem advanced_retry_after_milliseconds
    (rl : AdvancedRateLimiter) (next : Handler) (r : Request) (w : ResponseWriter)
    (d : Duration)
    (h1 : rl.IsAllowed r = (false, none))
    (h2 : (rl.GetRateLimitData r).RetryAfter = d) :
    headerGet (AdvancedMiddleware rl next r (Exec.init w)).writer.headers "X-RateLimit-Retry-After"
      = some (fmtInt (Duration.Milliseconds d)) ∧
    (0 ≤ d → Duration.Milliseconds d = Int.ofNat (d.toNat / 1000000)) ∧
    (d < 0 → Duration.Milliseconds d = -Int.ofNat ((-d).toNat / 1000000)) := by
  refine ⟨?_, ?_, ?_⟩
  · rw [advancedMiddleware_deny_eq rl next r w h1, h2, writerWriteHeader_headers]
    exact headerGet_set_self _ _ _
  · intro hd
    cases d with
    | ofNat m => rfl
    | negSucc m => exact absurd hd (Int.negSucc_lt_zero m).not_le
  · intro hd
    cases d with
    | ofNat m => exact absurd hd (Int.ofNat_nonneg m).not_lt
    | negSucc m => rfl

theorem advanced_retry_after_milliseconds_witness :
    denyAdvLimiter.IsAllowed testReq = (false, none) ∧
    (denyAdvLimiter.GetRateLimitData testReq).RetryAfter = 1000000000 ∧
    fmtInt (Duration.Milliseconds 1000000000) = "1000" ∧
    (headerGet (AdvancedMiddleware denyAdvLimiter okHandler testReq (Exec.init freshWriter)).writer.headers "X-RateLimit-Retry-After"
      = some (fmtInt (Duration.Milliseconds 1000000000)) ∧
    ((0 : Int) ≤ 1000000000 → Duration.Milliseconds 1000000000 = Int.ofNat ((1000000000 : Int).toNat / 1000000)) ∧
    ((1000000000 : Int) < 0 → Duration.Milliseconds 1000000000 = -Int.ofNat ((-(1000000000 : Int)).toNat / 1000000))) :=
  ⟨rfl, rfl, rfl,
    advanced_retry_after_milliseconds denyAdvLimiter okHandler testReq freshWriter
      1000000000 rfl rfl⟩

/-- C7: when `IsAllowed` returns `(true, nil)` the extended handler sets
`X-RateLimit-Limit` and `X-RateLimit-Remaining` to the base-10 strings of
the snapshot's `Limit` and `Remaining`, then invokes the downstream handler
exactly once on that writer; its output is the final response, and no
retry-after header is touched on this path. -/
theorem advanced_allow_quota_headers
    (rl : AdvancedRateLimiter) (next : Handler) (r : Request) (w : ResponseWriter)
    (h : rl.IsAllowed r = (true, none)) :
    AdvancedMiddleware rl next r (Exec.init w) =
      Exec.mk
        (next r (ResponseWriter.mk (headerSet (headerSet w.headers "X-RateLimit-Limit" (fmtInt (rl.GetRateLimitData r).Limit)) "X-RateLimit-Remaining" (fmtInt (rl.GetRateLimitData r).Remaining)) w.status w.body))
        [Event.evaluateCall, Event.getDataCall,
          Event.setHeader "X-RateLimit-Limit" (fmtInt (rl.GetRateLimitData r).Limit),
          Event.setHeader "X-RateLimit-Remaining" (fmtInt (rl.GetRateLimitData r).Remaining),
          Event.nextCall] ∧
    countEvent Event.nextCall (AdvancedMiddleware rl next r (Exec.init w)).log = 1 ∧
    headerGet (headerSet (headerSet w.headers "X-RateLimit-Limit" (fmtInt (rl.GetRateLimitData r).Limit)) "X-RateLimit-Remaining" (fmtInt (rl.GetRateLimitData r).Remaining)) "X-RateLimit-Limit"
      = some (fmtInt (rl.GetRateLimitData r).Limit) ∧
    headerGet (headerSet (headerSet w.headers "X-RateLimit-Limit" (fmtInt (rl.GetRateLimitData r).Limit)) "X-RateLimit-Remaining" (fmtInt (rl.GetRateLimitData r).Remaining)) "X-RateLimit-Remaining"
      = some (fmtInt (rl.GetRateLimitData r).Remaining) ∧
    headerGet (headerSet (headerSet w.headers "X-RateLimit-Limit" (fmtInt (rl.GetRateLimitData r).Limit)) "X-RateLimit-Remaining" (fmtInt (rl.GetRateLimitData r).Remaining)) "X-RateLimit-Retry-After"
      = headerGet w.headers "X-RateLimit-Retry-After" := by
  refine ⟨advancedMiddleware_allow_eq rl next r w h, ?_, ?_, ?_, ?_⟩
  · rw [advancedMiddleware_allow_eq rl next r w h]
    simp [countEvent]
  · rw [headerGet_set_other _ "X-RateLimit-Remaining" _ "X-RateLimit-Limit" (by decide)]
    exact headerGet_set_self _ _ _
  · exact headerGet_set_self _ _ _
  · rw [headerGet_set_other _ "X-RateLimit-Remaining" _ "X-RateLimit-Retry-After" (by decide)]
    exact headerGet_set_other _ "X-RateLimit-Limit" _ "X-RateLimit-Retry-After" (by decide)

theorem advanced_allow_quota_headers_witness :
    allowAdvLimiter.IsAllowed testReq = (true, none) ∧
    (AdvancedMiddleware allowAdvLimiter okHandler testReq (Exec.init freshWriter) =
      Exec.mk
        (okHandler testReq (ResponseWriter.mk (headerSet (headerSet freshWriter.headers "X-RateLimit-Limit" (fmtInt (allowAdvLimiter.GetRateLimitData testReq).Limit)) "X-RateLimit-Remaining" (fmtInt (allowAdvLimiter.GetRateLimitData testReq).Remaining)) freshWriter.status freshWriter.body))
        [Event.evaluateCall, Event.getDataCall,
          Event.setHeader "X-RateLimit-Limit" (fmtInt (allowAdvLimiter.GetRateLimitData testReq).Limit),
          Event.setHeader "X-RateLimit-Remaining" (fmtInt (allowAdvLimiter.GetRateLimitData testReq).Remaining),
          Event.nextCall] ∧
    countEvent Event.nextCall (AdvancedMiddleware allowAdvLimiter okHandler testReq (Exec.init freshWriter)).log = 1 ∧
    headerGet (headerSet (headerSet freshWriter.headers "X-RateLimit-Limit" (fmtInt (allowAdvLimiter.GetRateLimitData testReq).Limit)) "X-RateLimit-Remaining" (fmtInt (allowAdvLimiter.GetRateLimitData testReq).Remaining)) "X-RateLimit-Limit"
      = some (fmtInt (allowAdvLimiter.GetRateLimitData testReq).Limit) ∧
    headerGet (headerSet (headerSet freshWriter.headers "X-RateLimit-Limit" (fmtInt (allowAdvLimiter.GetRateLimitData testReq).Limit)) "X-RateLimit-Remaining" (fmtInt (allowAdvLimiter.GetRateLimitData testReq).Remaining)) "X-RateLimit-Remaining"
      = some (fmtInt (allowAdvLimiter.GetRateLimitData testReq).Remaining) ∧
    headerGet (headerSet (headerSet freshWriter.headers "X-RateLimit-Limit" (fmtInt (allowAdvLimiter.GetRateLimitData testReq).Limit)) "X-RateLimit-Remaining" (fmtInt (allowAdvLimiter.GetRateLimitData testReq).Remaining)) "X-RateLimit-Retry-After"
      = headerGet freshWriter.headers "X-RateLimit-Retry-After") :=
  ⟨rfl, advanced_allow_quota_headers allowAdvLimiter okHandler testReq freshWriter rfl⟩

/-- C8: in every `AdvancedMiddleware` execution no header mutation occurs
after a status-committing event; concretely, on the deny path the
retry-after header is set strictly before `WriteHeader 429`, and on the
allow path both quota headers are set strictly before the downstream
handler is invoked. -/
theorem advanced_headers_before_commit
    (rl : AdvancedRateLimiter) (next : Handler) (r : Request) (w : ResponseWriter) :
    headersBeforeCommit (AdvancedMiddleware rl next r (Exec.init w)).log = true ∧
    (rl.IsAllowed r = (false, none) →
      (AdvancedMiddleware rl next r (Exec.init w)).log =
        [Event.evaluateCall, Event.getDataCall,
          Event.setHeader "X-RateLimit-Retry-After" (fmtInt (Duration.Milliseconds (rl.GetRateLimitData r).RetryAfter)),
          Event.writeHeader 429]) ∧
    (rl.IsAllowed r = (true, none) →
      (AdvancedMiddleware rl next r (Exec.init w)).log =
        [Event.evaluateCall, Event.getDataCall,
          Event.setHeader "X-RateLimit-Limit" (fmtInt (rl.GetRateLimitData r).Limit),
          Event.setHeader "X-RateLimit-Remaining" (fmtInt (rl.GetRateLimitData r).Remaining),
          Event.nextCall]) := by
  refine ⟨?_, ?_, ?_⟩
  · rcases hres : rl.IsAllowed r with ⟨a, err⟩
    cases err <;> cases a <;>
      simp [AdvancedMiddleware, Exec.init, Exec.logEvent, Exec.writeHeader,
        Exec.setHeader, Exec.serveNext, hres, headersBeforeCommit, noSetHeaderIn]
  · intro h
    rw [advancedMiddleware_deny_eq rl next r w h]
  · intro h
    rw [advancedMiddleware_allow_eq rl next r w h]

theorem advanced_headers_before_commit_witness :
    denyAdvLimiter.IsAllowed testReq = (false, none) ∧
    (headersBeforeCommit (AdvancedMiddleware denyAdvLimiter okHandler testReq (Exec.init freshWriter)).log = true ∧
    (denyAdvLimiter.IsAllowed testReq = (false, none) →
      (AdvancedMiddleware denyAdvLimiter okHandler testReq (Exec.init freshWriter)).log =
        [Event.evaluateCall, Event.getDataCall,
          Event.setHeader "X-RateLimit-Retry-After" (fmtInt (Duration.Milliseconds (denyAdvLimiter.GetRateLimitData testReq).RetryAfter)),
          Event.writeHeader 429]) ∧
    (denyAdvLimiter.IsAllowed testReq = (true, none) →
      (AdvancedMiddleware denyAdvLimiter okHandler testReq (Exec.init freshWriter)).log =
        [Event.evaluateCall, Event.getDataCall,
          Event.setHeader "X-RateLimit-Limit" (fmtInt (denyAdvLimiter.GetRateLimitData testReq).Limit),
          Event.setHeader "X-RateLimit-Remaining" (fmtInt (denyAdvLimiter.GetRateLimitData testReq).Remaining),
          Event.nextCall])) :=
  ⟨rfl, advanced_headers_before_commit denyAdvLimiter okHandler testReq freshWriter⟩

/-- C10: `AdvancedMiddleware` neither validates nor clamps snapshot values:
for every snapshot — negative fields and `Remaining > Limit` included — the
raw fields are rendered into the headers, a negative value printing as a
minus sign followed by its absolute value's digits; e.g. `Remaining = -1`
prints `"-1"` and `RetryAfter = -1s` prints `"-1000"`. -/
theorem advanced_no_clamping
    (rl : AdvancedRateLimiter) (next : Handler) (r : Request) (w : ResponseWriter)
    (data : RateLimitData) (hdata : rl.GetRateLimitData r = data) :
    (rl.IsAllowed r = (true, none) →
      (AdvancedMiddleware rl next r (Exec.init w)).log =
        [Event.evaluateCall, Event.getDataCall,
          Event.setHeader "X-RateLimit-Limit" (fmtInt data.Limit),
          Event.setHeader "X-RateLimit-Remaining" (fmtInt data.Remaining),
          Event.nextCall]) ∧
    (rl.IsAllowed r = (false, none) →
      headerGet (AdvancedMiddleware rl next r (Exec.init w)).writer.headers "X-RateLimit-Retry-After"
        = some (fmtInt (Duration.Milliseconds data.RetryAfter))) ∧
    (data.Remaining < 0 →
      fmtInt data.Remaining = "-" ++ Nat.repr data.Remaining.natAbs) ∧
    fmtInt (-1) = "-1" ∧
    fmtInt (Duration.Milliseconds (-1000000000)) = "-1000" := by
  refine ⟨?_, ?_, ?_, rfl, rfl⟩
  · intro h
    rw [advancedMiddleware_allow_eq rl next r w h, hdata]
  · intro h
    rw [advancedMiddleware_deny_eq rl next r w h, hdata, writerWriteHeader_headers]
    exact headerGet_set_self _ _ _
  · intro hneg
    cases hrem : data.Remaining with
    | ofNat m =>
      rw [hrem] at hneg
      exact absurd hneg (Int.ofNat_nonneg m).not_lt
    | negSucc m =>
      rfl

def negAdvLimiter : AdvancedRateLimiter :=
  { IsAllowed := fun _ => (true, none),
    GetRateLimitData := fun _ => { Remaining := -1, Limit := 5, RetryAfter := -1000000000 } }

theorem advanced_no_clamping_witness :
    negAdvLimiter.GetRateLimitData testReq =
      { Remaining := -1, Limit := 5, RetryAfter := -1000000000 } ∧
    ((negAdvLimiter.IsAllowed testReq = (true, none) →
      (AdvancedMiddleware negAdvLimiter okHandler testReq (Exec.init freshWriter)).log =
        [Event.evaluateCall, Event.getDataCall,
          Event.setHeader "X-RateLimit-Limit" (fmtInt (5 : Int)),
          Event.setHeader "X-RateLimit-Remaining" (fmtInt (-1 : Int)),
          Event.nextCall]) ∧
    (negAdvLimiter.IsAllowed testReq = (false, none) →
      headerGet (AdvancedMiddleware negAdvLimiter okHandler testReq (Exec.init freshWriter)).writer.headers "X-RateLimit-Retry-After"
        = some (fmtInt (Duration.Milliseconds (-1000000000)))) ∧
    ((-1 : Int) < 0 →
      fmtInt (-1) = "-" ++ Nat.repr (Int.natAbs (-1))) ∧
    fmtInt (-1) = "-1" ∧
    fmtInt (Duration.Milliseconds (-1000000000)) = "-1000") :=
  ⟨rfl, advanced_no_clamping negAdvLimiter okHandler testReq freshWriter
    { Remaining := -1, Limit := 5, RetryAfter := -1000000000 } rfl⟩
